import Mathlib

/-!
Shallow embedding of the availability / booking-admission engine of the
resource_manager repository (Python backend).

Dates are modelled as proleptic-Gregorian ordinals (`Nat`), matching
Python's `datetime.date.toordinal()`: day 1 is 0001-01-01, a Monday, and
`date.weekday()` returns Monday = 0 … Sunday = 6, i.e. `(n - 1) % 7`.
Hour quantities are `ℚ` (the Python code computes with floats; the spec
says internal math is full-precision, and every concrete value used here
is exactly representable).

Sources embedded:
- `src/backend/controllers/project_controller.py`
  (`count_working_days`, `book_employee_for_project`)
- `src/backend/controllers/dashboard_controller.py`
  (`count_working_days`, `prorate_booking_hours_for_month`,
   `prorate_reservation_hours_for_month`, monthly-summary accumulation)
- `src/backend/models/project.py` (`Project.add_booking` signature)
- `src/backend/models/reservation.py` (`EmployeeReservation.create`, `update`)
- `src/backend/controllers/settings_controller.py`
  (`get_work_hours_per_day`, `get_settings_for_employee`)
-/

namespace ResourceManager

/-! ## Calendar: ordinals and weekdays (Python `datetime.date`) -/

/-- Python `date.weekday()`: Monday = 0 … Sunday = 6; ordinal 1 (0001-01-01)
is a Monday in the proleptic Gregorian calendar. -/
def weekday (n : ℕ) : ℕ := (n - 1) % 7

/-- Gregorian leap-year test. -/
def isLeap (y : ℕ) : Bool := (y % 4 == 0 && y % 100 != 0) || y % 400 == 0

/-- Days in a given month of a given year. -/
def daysInMonth (y m : ℕ) : ℕ :=
  if m = 2 then (if isLeap y then 29 else 28)
  else if m = 4 ∨ m = 6 ∨ m = 9 ∨ m = 11 then 30
  else 31

/-- Days in all months strictly before month `m` of year `y`. -/
def daysBeforeMonth (y m : ℕ) : ℕ :=
  ((List.range (m - 1)).map (fun i => daysInMonth y (i + 1))).sum

/-- Days in all years strictly before year `y`. -/
def daysBeforeYear (y : ℕ) : ℕ :=
  365 * (y - 1) + ((y - 1) / 4 - (y - 1) / 100) + (y - 1) / 400

/-- `date(y, m, d).toordinal()`: proleptic Gregorian ordinal of a date. -/
def toOrdinal (y m d : ℕ) : ℕ := daysBeforeYear y + daysBeforeMonth y m + d

/-! ## `count_working_days`

Both controllers define the same local helper
(`project_controller.py` lines 102-109, `dashboard_controller.py` lines
53-60): a `while current <= end` loop counting the days whose
`weekday()` is not in the hardcoded pair `(4, 5)` (Friday, Saturday).
The loop body runs once per day of the inclusive range, i.e.
`e + 1 - s` times (zero times when `e < s`, in which case the function
returns 0 rather than raising). -/

/-- One loop iteration per remaining day, starting at `current`; the
condition is `current.weekday() not in (4, 5)`. -/
def countWorkingDaysAux : ℕ → ℕ → ℕ
  | _, 0 => 0
  | current, fuel + 1 =>
      (if weekday current ∉ ([4, 5] : List ℕ) then 1 else 0)
        + countWorkingDaysAux (current + 1) fuel

/-- `count_working_days(start, end)` as written in both controllers:
weekend hardcoded to Friday(4)/Saturday(5), returns 0 on a reversed
range (the loop never runs). -/
def countWorkingDays (s e : ℕ) : ℕ := countWorkingDaysAux s (e + 1 - s)

/-- Modelled from the spec: `count_working_days(start, end, weekend_days)`
as §4.1 describes it — the weekend set is a parameter, and the result is
the number of dates in the inclusive range whose weekday is not in that
set. (The source's `count_working_days` takes no such parameter; this
definition exists to compare the spec's words with the source.) -/
def countWorkingDaysSpec (weekend : List ℕ) (s e : ℕ) : ℕ :=
  (List.range (e + 1 - s)).countP (fun i => decide (weekday (s + i) ∉ weekend))

/-! ## Pro-rated contributions (admission path)

`book_employee_for_project`, lines 135-151 (bookings) and 158-168
(reservations): for each record, the overlap of its `[start, end]` with
the query window is taken with `max`/`min`; an empty overlap contributes
nothing; a booking with zero working days of its own contributes nothing
(the `if booking_total_working_days > 0` guard); otherwise the booking
contributes `booked_hours / total_wd * overlap_wd` and a reservation
contributes `reserved_hours_per_day * overlap_wd`. -/

/-- Contribution of one existing booking `[bs, be]` with total hours
`hours` to the utilized hours of the window `[ws, we]`. -/
def bookingContribution (ws we bs be : ℕ) (hours : ℚ) : ℚ :=
  let os := max ws bs
  let oe := min we be
  if os ≤ oe then
    let owd := countWorkingDays os oe
    let twd := countWorkingDays bs be
    if 0 < twd then hours / twd * owd else 0
  else 0

/-- Contribution of one active reservation `[rs, re]` at `hpd` hours per
day to the utilized hours of the window `[ws, we]`. -/
def reservationContribution (ws we rs re : ℕ) (hpd : ℚ) : ℚ :=
  let os := max ws rs
  let oe := min we re
  if os ≤ oe then hpd * countWorkingDays os oe else 0

/-! ## `book_employee_for_project` (project_controller.py lines 71-197)

The controller, after checking the required fields and that project and
employee exist, computes the window's working days and capacity using the
employee's effective `work_hours_per_day`, sums the pro-rated
contributions of the employee's non-cancelled bookings and active
reservations fetched by the SQL coarse-overlap condition, floors the
remaining capacity at zero, and rejects with the insufficient-capacity
error when the proposed hours exceed it; otherwise it calls
`project.add_booking(employee_id=…, start_date=…, end_date=…,
booked_hours=…, role=…)` inside `try/except`.

The error message of the insufficient-capacity branch interpolates
`round(available_hours, 1)`, `round(total_utilized_hours, 1)` and the
rounded breakdown; the embedding carries the exact computed quantities
(rounding is display formatting of those same values). -/

/-- One row of `project_bookings` as the admission query sees it. -/
structure BookingRec where
  employeeId : ℕ
  startD : ℕ
  endD : ℕ
  bookedHours : ℚ
  status : String
deriving DecidableEq, Repr

/-- One row of `employee_reservations`. -/
structure ReservationRec where
  id : ℕ
  employeeId : ℕ
  startD : ℕ
  endD : ℕ
  reservedHoursPerDay : ℚ
  reason : Option String
  status : String
deriving DecidableEq, Repr

/-- The three-disjunct coarse overlap condition used by the SQL queries
(`project_controller.py` lines 122-126, `reservation.py` lines 34-38):
row range `[rs, re]` against query range `[s, e]`. -/
def sqlOverlap (rs re s e : ℕ) : Bool :=
  (rs ≤ s && s ≤ re) || (rs ≤ e && e ≤ re) || (s ≤ rs && re ≤ e)

/-- The booking-request payload after date parsing (the required-field
check of lines 77-81 models absent dict keys as `none`). -/
structure BookInput where
  employeeId : Option ℕ
  startD : Option ℕ
  endD : Option ℕ
  bookedHours : Option ℚ
  role : Option String
deriving Repr

/-- Result of `book_employee_for_project`: each constructor is one of the
controller's `return` dictionaries. `insufficientCapacity` carries the
computed `available_hours`, `total_utilized_hours`, `total_booked_hours`
and `total_reserved_hours` that the error message interpolates. -/
inductive BookResult where
  | missingField (field : String)
  | projectNotFound
  | employeeNotFound
  | insufficientCapacity (available totalUtilized totalBooked totalReserved : ℚ)
  | bookingFailed (msg : String)
  | success
deriving DecidableEq, Repr

/-- Parameter names of the only definition of `Project.add_booking`
(`project.py` line 128): `(self, employee_id, month, year, booked_hours,
booking_date=None)`. -/
def addBookingParams : List String :=
  ["employee_id", "month", "year", "booked_hours", "booking_date"]

/-- Parameters of `Project.add_booking` that have no default value. -/
def addBookingRequired : List String :=
  ["employee_id", "month", "year", "booked_hours"]

/-- Keyword arguments of the call `project.add_booking(...)` at
`project_controller.py` lines 182-188. -/
def addBookingCallKwargs : List String :=
  ["employee_id", "start_date", "end_date", "booked_hours", "role"]

/-- Python keyword-call binding: every keyword must name a parameter and
every parameter without a default must be bound, else the call raises
`TypeError` before the callee's body runs. -/
def kwargsBind (params required kwargs : List String) : Bool :=
  kwargs.all (fun k => params.contains k)
    && required.all (fun p => kwargs.contains p)

/-- The persistence step of the success path: the `add_booking` call,
whose keyword arguments must bind against `add_booking`'s parameters.
An unbound call raises `TypeError`, caught by `except Exception` and
returned as the `'Booking failed: …'` error (lines 196-197). -/
def persistBooking : BookResult :=
  if kwargsBind addBookingParams addBookingRequired addBookingCallKwargs then
    .success
  else
    .bookingFailed "Booking failed: TypeError in add_booking call"

/-- Sum of pro-rated hours of the employee's non-cancelled bookings whose
rows pass the SQL coarse-overlap filter (lines 115-151). -/
def totalBookedHours (bookings : List BookingRec) (empId ws we : ℕ) : ℚ :=
  ((bookings.filter (fun b =>
      b.employeeId == empId && b.status != "cancelled"
        && sqlOverlap b.startD b.endD ws we)).map
    (fun b => bookingContribution ws we b.startD b.endD b.bookedHours)).sum

/-- Sum of pro-rated hours of the employee's active reservations whose
rows pass the SQL coarse-overlap filter (lines 153-168). -/
def totalReservedHours (reservations : List ReservationRec) (empId ws we : ℕ) : ℚ :=
  ((reservations.filter (fun r =>
      r.employeeId == empId && r.status == "active"
        && sqlOverlap r.startD r.endD ws we)).map
    (fun r => reservationContribution ws we r.startD r.endD r.reservedHoursPerDay)).sum

/-- `total_max_hours = total_working_days * max_hours_per_day`
(lines 111-113), with `max_hours_per_day` the employee's effective
`work_hours_per_day`. -/
def totalMaxHours (ws we : ℕ) (workHoursPerDay : ℚ) : ℚ :=
  (countWorkingDays ws we : ℚ) * workHoursPerDay

/-- `available_hours = max(0, total_max_hours - total_utilized_hours)`
(line 171). -/
def availableHours (bookings : List BookingRec) (reservations : List ReservationRec)
    (empId ws we : ℕ) (workHoursPerDay : ℚ) : ℚ :=
  max 0 (totalMaxHours ws we workHoursPerDay
    - (totalBookedHours bookings empId ws we
        + totalReservedHours reservations empId ws we))

/-- `ProjectController.book_employee_for_project`, with the data the
Python code fetches through the database passed in as explicit state:
`projectExists`/`employeeExists` are the results of the `get_by_id`
lookups, `bookings`/`reservations` the stored rows, and
`workHoursPerDay` the employee's effective `work_hours_per_day` from
`get_settings_for_employee`. -/
def bookEmployeeForProject (projectExists employeeExists : Bool)
    (input : BookInput) (bookings : List BookingRec)
    (reservations : List ReservationRec) (workHoursPerDay : ℚ) : BookResult :=
  match input.employeeId with
  | none => .missingField "employee_id"
  | some empId =>
    match input.startD with
    | none => .missingField "start_date"
    | some ws =>
      match input.endD with
      | none => .missingField "end_date"
      | some we =>
        match input.bookedHours with
        | none => .missingField "booked_hours"
        | some hours =>
          if ¬projectExists then .projectNotFound
          else if ¬employeeExists then .employeeNotFound
          else
            let available := availableHours bookings reservations empId ws we workHoursPerDay
            if hours > available then
              .insufficientCapacity available
                (totalBookedHours bookings empId ws we
                  + totalReservedHours reservations empId ws we)
                (totalBookedHours bookings empId ws we)
                (totalReservedHours reservations empId ws we)
            else
              persistBooking

/-! ## Dashboard (`dashboard_controller.py` lines 11-228)

`get_resources_dashboard` reads the global settings, fetches each
employee's schedule rows, bookings and reservations, enriches each month
row with pro-rated (and `round(·, 1)`-ed) booking and reservation hours,
and accumulates the monthly summary: `actual_available = base_available -
total_utilized` (line 197) with `base_available = (work_hours_per_day -
reserved_hours_per_day) * work_days_per_month` (line 189) — note: no
`max(0, …)` there, unlike line 130's per-row `available_hours_per_month`
field and unlike the admission path. -/

/-- First calendar day of a month as an ordinal
(`date(year, month, 1)`). -/
def monthStart (year month : ℕ) : ℕ := toOrdinal year month 1

/-- Last calendar day of a month as an ordinal (`date(year, 12, 31)` for
December, else `date(year, month+1, 1) - timedelta(days=1)`). -/
def monthEnd (year month : ℕ) : ℕ :=
  if month = 12 then toOrdinal year 12 31 else toOrdinal year (month + 1) 1 - 1

/-- `prorate_booking_hours_for_month` (lines 63-81). -/
def prorateBookingHoursForMonth (bs be : ℕ) (hours : ℚ) (month year : ℕ) : ℚ :=
  let os := max bs (monthStart year month)
  let oe := min be (monthEnd year month)
  if oe < os then 0
  else
    let twd := countWorkingDays bs be
    if twd = 0 then 0
    else (hours / twd) * countWorkingDays os oe

/-- `prorate_reservation_hours_for_month` (lines 84-98). -/
def prorateReservationHoursForMonth (rs re : ℕ) (hpd : ℚ) (month year : ℕ) : ℚ :=
  let os := max rs (monthStart year month)
  let oe := min re (monthEnd year month)
  if oe < os then 0 else hpd * countWorkingDays os oe

/-- Python's `round` to the nearest integer, ties to even. -/
def pyRoundHalfEven (q : ℚ) : ℤ :=
  if q - ⌊q⌋ < 1/2 then ⌊q⌋
  else if 1/2 < q - ⌊q⌋ then ⌊q⌋ + 1
  else if ⌊q⌋ % 2 = 0 then ⌊q⌋ else ⌊q⌋ + 1

/-- Python's `round(q, 1)`. -/
def pyRound1 (q : ℚ) : ℚ := (pyRoundHalfEven (q * 10) : ℚ) / 10

/-- One booking row as the dashboard query selects it (already filtered
to non-cancelled and year-overlapping in SQL, lines 135-143). -/
structure DashBooking where
  startD : ℕ
  endD : ℕ
  bookedHours : ℚ
deriving Repr

/-- One reservation row as the dashboard query selects it (already
filtered to active and year-overlapping in SQL, lines 146-154). -/
structure DashReservation where
  startD : ℕ
  endD : ℕ
  hoursPerDay : ℚ
deriving Repr

/-- One `employee_schedules` row (month plus its reserved rate). -/
structure SchedRow where
  month : ℕ
  reservedHoursPerDay : ℚ
deriving Repr

/-- One employee's dashboard inputs. -/
structure EmpDashData where
  sched : List SchedRow
  bookings : List DashBooking
  reservations : List DashReservation
deriving Repr

/-- `sched['project_booked_hours']` for one month: the pro-rated booking
sum, rounded to one decimal (line 174). -/
def projectBookedHours (bookings : List DashBooking) (month year : ℕ) : ℚ :=
  pyRound1 ((bookings.map
    (fun b => prorateBookingHoursForMonth b.startD b.endD b.bookedHours month year)).sum)

/-- `sched['reserved_hours']` for one month: the pro-rated reservation
sum, rounded to one decimal (line 175). -/
def reservedHoursForMonth (reservations : List DashReservation) (month year : ℕ) : ℚ :=
  pyRound1 ((reservations.map
    (fun r => prorateReservationHoursForMonth r.startD r.endD r.hoursPerDay month year)).sum)

/-- Line 130's per-row field: `available_hours_per_month = max(0,
(work_hours_per_day - reserved) * work_days_per_month)`. -/
def availableHoursPerMonthField (whpd wdpm reserved : ℚ) : ℚ :=
  max 0 ((whpd - reserved) * wdpm)

/-- Lines 187-197: one schedule row's `actual_available = base_available
- total_utilized`, with no zero floor. -/
def actualAvailable (whpd wdpm : ℚ) (emp : EmpDashData) (row : SchedRow)
    (year : ℕ) : ℚ :=
  let baseAvailable := (whpd - row.reservedHoursPerDay) * wdpm
  let totalUtilized := projectBookedHours emp.bookings row.month year
    + reservedHoursForMonth emp.reservations row.month year
  baseAvailable - totalUtilized

/-- `monthly_summary[month]['total_available']` (line 199): the sum of
`actual_available` over every employee's schedule rows of that month. -/
def monthlyTotalAvailable (whpd wdpm : ℚ) (emps : List EmpDashData)
    (month year : ℕ) : ℚ :=
  (emps.map (fun emp =>
    (((emp.sched.filter (fun row => row.month == month)).map
      (fun row => actualAvailable whpd wdpm emp row year))).sum)).sum

/-! ## Settings (`settings_controller.py`)

`get_settings` reads the global `work_hours_per_day` /
`work_days_per_month` from `config.py`; `get_settings_for_employee`
(lines 132-142) merges a per-employee `employee_business_rules` row over
the global values field by field; `get_work_hours_per_day` (lines 41-43)
returns the *global* value only. -/

/-- One `employee_business_rules` row: nullable per-field overrides. -/
structure EmpRulesRow where
  employeeId : ℕ
  workHoursPerDay : Option ℚ
  workDaysPerMonth : Option ℚ
deriving Repr

/-- The configuration state: global settings plus the override table. -/
structure Settings where
  workHoursPerDay : ℚ
  workDaysPerMonth : ℚ
  empRules : List EmpRulesRow
deriving Repr

/-- `SettingsController.get_work_hours_per_day`: the global value. -/
def getWorkHoursPerDay (cfg : Settings) : ℚ := cfg.workHoursPerDay

/-- `SettingsController.get_settings_for_employee(...)['work_hours_per_day']`:
the employee's override merged over the global value. -/
def effectiveWorkHoursPerDay (cfg : Settings) (empId : ℕ) : ℚ :=
  match cfg.empRules.find? (fun row => row.employeeId == empId) with
  | none => cfg.workHoursPerDay
  | some row => row.workHoursPerDay.getD cfg.workHoursPerDay

/-! ## Reservations (`reservation.py`)

`EmployeeReservation.create` (lines 18-58) raises `ValueError` for a
reversed range, for `reserved_hours_per_day` outside
`[0, get_work_hours_per_day()]` (the *global* bound), and for an
SQL-overlap with an existing active reservation of the same employee;
otherwise it inserts the row. `update` (lines 107-138) validates only
the hours bound (when that field is supplied) and applies the updates —
it performs no overlap re-check. The store is the
`employee_reservations` table as a list; each operation returns its
result together with the table afterwards. -/

/-- The three `ValueError`s of `create`/`update`, by message. -/
inductive ResError where
  | invalidRange
  | outOfRange
  | overlap
deriving DecidableEq, Repr

/-- `EmployeeReservation.create`: the new row's id models the
autoincrement key. -/
def createReservation (cfg : Settings) (store : List ReservationRec)
    (empId s e : ℕ) (hpd : ℚ) (reason : Option String) :
    Except ResError ReservationRec × List ReservationRec :=
  if e < s then (.error .invalidRange, store)
  else
    let maxHours := getWorkHoursPerDay cfg
    if hpd < 0 ∨ maxHours < hpd then (.error .outOfRange, store)
    else if store.any (fun r => r.employeeId == empId && r.status == "active"
        && sqlOverlap r.startD r.endD s e) then
      (.error .overlap, store)
    else
      let newRec : ReservationRec :=
        ⟨store.length + 1, empId, s, e, hpd, reason, "active"⟩
      (.ok newRec, store ++ [newRec])

/-- The kwargs of `EmployeeReservation.update`: `none` = key absent. -/
structure ResUpdate where
  startD : Option ℕ
  endD : Option ℕ
  reservedHoursPerDay : Option ℚ
  reason : Option (Option String)
  status : Option String
deriving Repr

/-- Field-wise application of the `UPDATE … SET` assignments. -/
def applyResUpdate (r : ReservationRec) (u : ResUpdate) : ReservationRec :=
  { r with
    startD := u.startD.getD r.startD
    endD := u.endD.getD r.endD
    reservedHoursPerDay := u.reservedHoursPerDay.getD r.reservedHoursPerDay
    reason := u.reason.getD r.reason
    status := u.status.getD r.status }

/-- `EmployeeReservation.update`: only the hours bound is validated; the
date fields are written without any overlap re-check. -/
def updateReservation (cfg : Settings) (store : List ReservationRec)
    (resId : ℕ) (u : ResUpdate) :
    Except ResError Unit × List ReservationRec :=
  match u.reservedHoursPerDay with
  | some h =>
      if h < 0 ∨ getWorkHoursPerDay cfg < h then (.error .outOfRange, store)
      else
        let newStore := store.map (fun r => if r.id == resId then applyResUpdate r u else r)
        (.ok (), newStore)
  | none =>
      let newStore := store.map (fun r => if r.id == resId then applyResUpdate r u else r)
      (.ok (), newStore)

/-- The §3 invariant: two distinct active reservations of the same
employee whose date ranges intersect. -/
def activeOverlapExists (store : List ReservationRec) : Bool :=
  store.any (fun r1 => store.any (fun r2 =>
    r1.id ≠ r2.id && r1.employeeId == r2.employeeId
      && r1.status == "active" && r2.status == "active"
      && r1.startD ≤ r2.endD && r2.startD ≤ r1.endD))

/-- The error the spec's §4.1 expects for a reversed range. -/
inductive RangeError where
  | invalidRange
deriving DecidableEq, Repr

/-- Modelled from the spec: §4.1's `count_working_days(start, end,
weekend_days)`, which "fails with InvalidRangeError if end < start"
(the source function performs no such check; this definition exists to
compare the spec's words with the source). -/
def countWorkingDaysChecked (weekend : List ℕ) (s e : ℕ) : Except RangeError ℕ :=
  if e < s then .error .invalidRange else .ok (countWorkingDaysSpec weekend s e)

/-! ## Helper lemmas -/

/-- A reversed range makes the counting loop run zero times. -/
lemma countWorkingDays_eq_zero_of_reversed {s e : ℕ} (h : e < s) :
    countWorkingDays s e = 0 := by
  unfold countWorkingDays
  have : e + 1 - s = 0 := by omega
  rw [this]
  rfl

/-- A positive working-day count forces a non-reversed range. -/
lemma le_of_countWorkingDays_pos {s e : ℕ} (h : 0 < countWorkingDays s e) :
    s ≤ e := by
  by_contra hc
  rw [countWorkingDays_eq_zero_of_reversed (by omega)] at h
  exact absurd h (by omega)

/-- The loop counter equals the per-day count for the hardcoded
Friday/Saturday weekend. -/
lemma countWorkingDaysAux_eq_countP :
    ∀ (fuel c : ℕ), countWorkingDaysAux c fuel
      = (List.range fuel).countP (fun i => decide (weekday (c + i) ∉ ([4, 5] : List ℕ))) := by
  intro fuel
  induction fuel with
  | zero => intro c; rfl
  | succ n ih =>
    intro c
    have hfun : ((fun i => decide (weekday (c + i) ∉ ([4, 5] : List ℕ))) ∘ Nat.succ)
        = (fun i => decide (weekday ((c + 1) + i) ∉ ([4, 5] : List ℕ))) := by
      funext i
      simp only [Function.comp_apply]
      have h : c + Nat.succ i = c + 1 + i := by omega
      rw [h]
    rw [List.range_succ_eq_map, List.countP_cons, List.countP_map, hfun, ← ih (c + 1)]
    simp only [countWorkingDaysAux, Nat.add_zero, decide_eq_true_eq]
    by_cases h : weekday c ∉ ([4, 5] : List ℕ)
    · simp [h, Nat.add_comm]
    · simp [h, Nat.add_comm]

/-- `persistBooking` always fails: the keyword arguments of the
`add_booking` call do not bind against `add_booking`'s parameters
(`start_date`, `end_date` and `role` are unexpected, `month` and `year`
are missing), so the call raises `TypeError` and the handler converts it
to the booking-failed error. -/
lemma persistBooking_eq_failure :
    persistBooking = .bookingFailed "Booking failed: TypeError in add_booking call" := by
  decide

/-- Empty booking table: no utilized booking hours. -/
lemma totalBookedHours_nil (empId ws we : ℕ) : totalBookedHours [] empId ws we = 0 := rfl

/-- Empty reservation table: no utilized reservation hours. -/
lemma totalReservedHours_nil (empId ws we : ℕ) : totalReservedHours [] empId ws we = 0 := rfl

/-- With empty tables, the available hours are the window capacity
floored at zero. -/
lemma availableHours_nil (empId ws we : ℕ) (whpd : ℚ) :
    availableHours [] [] empId ws we whpd
      = max 0 ((countWorkingDays ws we : ℚ) * whpd) := by
  simp only [availableHours, totalMaxHours, totalBookedHours_nil, totalReservedHours_nil]
  rw [add_zero, sub_zero]

/-- Integers are fixed points of the half-even rounding. -/
lemma pyRoundHalfEven_intCast (n : ℤ) : pyRoundHalfEven (n : ℚ) = n := by
  simp only [pyRoundHalfEven, Int.floor_intCast]
  rw [if_pos]
  rw [sub_self]
  norm_num

/-- Integers are fixed points of `round(·, 1)`. -/
lemma pyRound1_intCast (n : ℤ) : pyRound1 (n : ℚ) = n := by
  unfold pyRound1
  have h : ((n : ℚ) * 10) = ((n * 10 : ℤ) : ℚ) := by push_cast; ring
  rw [h, pyRoundHalfEven_intCast]
  push_cast
  exact mul_div_cancel_right₀ _ (by norm_num)

/-! ## Claim theorems -/

/-- C1: a booking overlapping the query window with a positive own
working-day count contributes exactly `booked_hours * overlap_wd /
total_wd`, and a booking fully contained in the window contributes
exactly `booked_hours`; this holds both for the admission path's
contribution and for the dashboard's per-month pro-rating. -/
theorem booking_prorata_contribution (ws we bs be : ℕ) (hours : ℚ) (m y : ℕ)
    (hwd : 0 < countWorkingDays bs be) :
    (max ws bs ≤ min we be →
      bookingContribution ws we bs be hours
        = hours * (countWorkingDays (max ws bs) (min we be) : ℚ)
            / (countWorkingDays bs be : ℚ))
    ∧ (ws ≤ bs → be ≤ we → bookingContribution ws we bs be hours = hours)
    ∧ (max bs (monthStart y m) ≤ min be (monthEnd y m) →
      prorateBookingHoursForMonth bs be hours m y
        = hours * (countWorkingDays (max bs (monthStart y m)) (min be (monthEnd y m)) : ℚ)
            / (countWorkingDays bs be : ℚ))
    ∧ (monthStart y m ≤ bs → be ≤ monthEnd y m →
      prorateBookingHoursForMonth bs be hours m y = hours) := by
  have htne : (countWorkingDays bs be : ℚ) ≠ 0 := Nat.cast_ne_zero.mpr hwd.ne'
  have hbe : bs ≤ be := le_of_countWorkingDays_pos hwd
  refine ⟨?_, ?_, ?_, ?_⟩
  · intro hov
    simp only [bookingContribution]
    rw [if_pos hov, if_pos hwd, div_mul_eq_mul_div]
  · intro h1 h2
    simp only [bookingContribution, max_eq_right h1, min_eq_right h2]
    rw [if_pos hbe, if_pos hwd]
    exact div_mul_cancel₀ hours htne
  · intro hov
    simp only [prorateBookingHoursForMonth]
    rw [if_neg (not_lt.mpr hov), if_neg hwd.ne', div_mul_eq_mul_div]
  · intro h1 h2
    simp only [prorateBookingHoursForMonth, max_eq_left h1, min_eq_left h2]
    rw [if_neg (not_lt.mpr hbe), if_neg hwd.ne']
    exact div_mul_cancel₀ hours htne

/-- Witness for C1: the 80-hour booking 2024-01-01..2024-01-10 (8 working
days under the Fri/Sat weekend) contributes `80 * overlap_wd / total_wd`
to the window 2024-01-01..2024-01-05 and exactly 80 to the containing
window 2024-01-01..2024-01-31. -/
theorem booking_prorata_contribution_witness :
    0 < countWorkingDays (toOrdinal 2024 1 1) (toOrdinal 2024 1 10)
    ∧ bookingContribution (toOrdinal 2024 1 1) (toOrdinal 2024 1 5)
        (toOrdinal 2024 1 1) (toOrdinal 2024 1 10) 80
      = 80 * (countWorkingDays (max (toOrdinal 2024 1 1) (toOrdinal 2024 1 1))
          (min (toOrdinal 2024 1 5) (toOrdinal 2024 1 10)) : ℚ)
        / (countWorkingDays (toOrdinal 2024 1 1) (toOrdinal 2024 1 10) : ℚ)
    ∧ bookingContribution (toOrdinal 2024 1 1) (toOrdinal 2024 1 31)
        (toOrdinal 2024 1 1) (toOrdinal 2024 1 10) 80 = 80 :=
  ⟨by decide,
   (booking_prorata_contribution (toOrdinal 2024 1 1) (toOrdinal 2024 1 5)
     (toOrdinal 2024 1 1) (toOrdinal 2024 1 10) 80 1 2024 (by decide)).1 (by decide),
   ((booking_prorata_contribution (toOrdinal 2024 1 1) (toOrdinal 2024 1 31)
     (toOrdinal 2024 1 1) (toOrdinal 2024 1 10) 80 1 2024 (by decide)).2.1
       (by decide) (by decide))⟩

/-- C3: `book_employee_for_project` never returns a success result: the
success path calls `project.add_booking` with keyword arguments
`start_date`, `end_date` and `role`, none of which are parameters of the
only definition of `Project.add_booking` (which also requires `month`
and `year`), so the call raises `TypeError` and the handler turns it
into an error return. -/
theorem book_employee_never_succeeds (pe ee : Bool) (input : BookInput)
    (bookings : List BookingRec) (reservations : List ReservationRec) (whpd : ℚ) :
    bookEmployeeForProject pe ee input bookings reservations whpd ≠ .success := by
  unfold bookEmployeeForProject
  cases input with
  | mk eid sd ed bh role =>
    cases eid <;> cases sd <;> cases ed <;> cases bh <;> simp only
    all_goals intro h
    all_goals first
      | exact BookResult.noConfusion h
      | (revert h
         split
         · exact fun h => BookResult.noConfusion h
         · split
           · exact fun h => BookResult.noConfusion h
           · split
             · exact fun h => BookResult.noConfusion h
             · rw [persistBooking_eq_failure]
               exact fun h => BookResult.noConfusion h)

/-- C6: a booking whose entire range has zero working days contributes
zero, with no division-by-zero failure, in both the admission path and
the dashboard pro-rating. -/
theorem zero_working_day_booking_zero (ws we bs be : ℕ) (hours : ℚ) (m y : ℕ)
    (h : countWorkingDays bs be = 0) :
    bookingContribution ws we bs be hours = 0
      ∧ prorateBookingHoursForMonth bs be hours m y = 0 := by
  constructor
  · simp only [bookingContribution, h]
    split
    · rw [if_neg (by omega)]
    · rfl
  · simp only [prorateBookingHoursForMonth, h]
    split
    · rfl
    · rw [if_pos trivial]

/-- Witness for C6: the booking 2024-01-05..2024-01-06 (a Friday and a
Saturday) has zero working days and contributes zero. -/
theorem zero_working_day_booking_zero_witness :
    countWorkingDays (toOrdinal 2024 1 5) (toOrdinal 2024 1 6) = 0
    ∧ bookingContribution (toOrdinal 2024 1 1) (toOrdinal 2024 1 31)
        (toOrdinal 2024 1 5) (toOrdinal 2024 1 6) 40 = 0 :=
  ⟨by decide,
   (zero_working_day_booking_zero (toOrdinal 2024 1 1) (toOrdinal 2024 1 31)
     (toOrdinal 2024 1 5) (toOrdinal 2024 1 6) 40 1 2024 (by decide)).1⟩

/-- C7 counterexample: the source `count_working_days` takes no weekend
parameter; under the Saturday/Sunday weekend the claimed behaviour would
count 2024-01-07 (a Sunday) as zero working days, but the source counts
it as one (its hardcoded weekend is Friday/Saturday). -/
theorem count_working_days_not_parameterized_cx :
    countWorkingDays (toOrdinal 2024 1 7) (toOrdinal 2024 1 7) = 1
    ∧ countWorkingDaysSpec [5, 6] (toOrdinal 2024 1 7) (toOrdinal 2024 1 7) = 0
    ∧ countWorkingDays (toOrdinal 2024 1 7) (toOrdinal 2024 1 7)
        ≠ countWorkingDaysSpec [5, 6] (toOrdinal 2024 1 7) (toOrdinal 2024 1 7) := by
  decide

/-- C7 amended: `count_working_days` has the weekend hardcoded to
Friday/Saturday; for every range (including reversed ones, where both
sides are 0) it returns the number of dates in the inclusive range whose
weekday is neither Friday (4) nor Saturday (5). -/
theorem count_working_days_fri_sat_hardcoded (s e : ℕ) :
    countWorkingDays s e = countWorkingDaysSpec [4, 5] s e :=
  countWorkingDaysAux_eq_countP (e + 1 - s) s

/-- C2 counterexample: an admission request whose proposed hours are
within the available capacity still does not succeed — the persistence
step's `add_booking` call fails, so the claim's "succeeds exactly when
proposed_hours ≤ available_hours" is false at this input. -/
theorem booking_admission_no_success_cx :
    (7 : ℚ) ≤ availableHours [] [] 1 (toOrdinal 2024 1 1) (toOrdinal 2024 1 5) 7
    ∧ bookEmployeeForProject true true
        ⟨some 1, some (toOrdinal 2024 1 1), some (toOrdinal 2024 1 5), some 7, none⟩
        [] [] 7
      = .bookingFailed "Booking failed: TypeError in add_booking call"
    ∧ bookEmployeeForProject true true
        ⟨some 1, some (toOrdinal 2024 1 1), some (toOrdinal 2024 1 5), some 7, none⟩
        [] [] 7 ≠ .success := by
  have hav : availableHours [] [] 1 (toOrdinal 2024 1 1) (toOrdinal 2024 1 5) 7 = 28 := by
    rw [availableHours_nil,
      show countWorkingDays (toOrdinal 2024 1 1) (toOrdinal 2024 1 5) = 4 from by decide]
    norm_num [max_def]
  have hbook : bookEmployeeForProject true true
      ⟨some 1, some (toOrdinal 2024 1 1), some (toOrdinal 2024 1 5), some 7, none⟩
      [] [] 7
      = .bookingFailed "Booking failed: TypeError in add_booking call" := by
    simp only [bookEmployeeForProject]
    rw [if_neg (by simp), if_neg (by simp), if_neg (by rw [hav]; norm_num),
      persistBooking_eq_failure]
  refine ⟨by rw [hav]; norm_num, hbook, by rw [hbook]; exact fun h => BookResult.noConfusion h⟩

/-- C2 amended: with the fields present and project and employee found,
the admission check rejects with the insufficient-capacity error —
carrying the computed available hours, the total utilized hours and the
booked/reserved breakdown — exactly when the proposed hours exceed the
computed available hours; when they do not, the capacity check passes
and the call proceeds to the persistence attempt, which fails (the
`add_booking` signature mismatch), so no success is returned. -/
theorem booking_admission_capacity_gate (empId ws we : ℕ) (hours : ℚ)
    (role : Option String) (bookings : List BookingRec)
    (reservations : List ReservationRec) (whpd : ℚ) :
    (availableHours bookings reservations empId ws we whpd < hours →
      bookEmployeeForProject true true ⟨some empId, some ws, some we, some hours, role⟩
          bookings reservations whpd
        = .insufficientCapacity (availableHours bookings reservations empId ws we whpd)
            (totalBookedHours bookings empId ws we
              + totalReservedHours reservations empId ws we)
            (totalBookedHours bookings empId ws we)
            (totalReservedHours reservations empId ws we))
    ∧ (hours ≤ availableHours bookings reservations empId ws we whpd →
      bookEmployeeForProject true true ⟨some empId, some ws, some we, some hours, role⟩
          bookings reservations whpd
        = .bookingFailed "Booking failed: TypeError in add_booking call") := by
  constructor
  · intro h
    simp only [bookEmployeeForProject]
    rw [if_neg (by simp), if_neg (by simp), if_pos h]
  · intro h
    simp only [bookEmployeeForProject]
    rw [if_neg (by simp), if_neg (by simp), if_neg (not_lt.mpr h), persistBooking_eq_failure]

/-- Witness for C2 amended: 40 proposed hours against 28 available
(window 2024-01-01..2024-01-05, 4 working days at 7 hours/day, nothing
utilized) are rejected with the carried breakdown. -/
theorem booking_admission_capacity_gate_witness :
    availableHours [] [] 1 (toOrdinal 2024 1 1) (toOrdinal 2024 1 5) 7 < 40
    ∧ bookEmployeeForProject true true
        ⟨some 1, some (toOrdinal 2024 1 1), some (toOrdinal 2024 1 5), some 40, none⟩
        [] [] 7
      = .insufficientCapacity
          (availableHours [] [] 1 (toOrdinal 2024 1 1) (toOrdinal 2024 1 5) 7)
          (totalBookedHours [] 1 (toOrdinal 2024 1 1) (toOrdinal 2024 1 5)
            + totalReservedHours [] 1 (toOrdinal 2024 1 1) (toOrdinal 2024 1 5))
          (totalBookedHours [] 1 (toOrdinal 2024 1 1) (toOrdinal 2024 1 5))
          (totalReservedHours [] 1 (toOrdinal 2024 1 1) (toOrdinal 2024 1 5)) := by
  have hav : availableHours [] [] 1 (toOrdinal 2024 1 1) (toOrdinal 2024 1 5) 7 = 28 := by
    rw [availableHours_nil,
      show countWorkingDays (toOrdinal 2024 1 1) (toOrdinal 2024 1 5) = 4 from by decide]
    norm_num [max_def]
  have hlt : availableHours [] [] 1 (toOrdinal 2024 1 1) (toOrdinal 2024 1 5) 7 < 40 := by
    rw [hav]; norm_num
  exact ⟨hlt,
    (booking_admission_capacity_gate 1 (toOrdinal 2024 1 1) (toOrdinal 2024 1 5)
      40 none [] [] 7).1 hlt⟩

/-- C4 counterexample: the claim's example is wrong on the calendar —
March 2024 has 21 working days under the Friday/Saturday weekend
(2024-03-01 is a Friday), not 22, so the full-month reservation at 2
hours/day contributes 42, not 44. -/
theorem reservation_march_2024_cx :
    reservationContribution (toOrdinal 2024 3 1) (toOrdinal 2024 3 31)
        (toOrdinal 2024 3 1) (toOrdinal 2024 3 31) 2 = 42
    ∧ reservationContribution (toOrdinal 2024 3 1) (toOrdinal 2024 3 31)
        (toOrdinal 2024 3 1) (toOrdinal 2024 3 31) 2 ≠ 44
    ∧ countWorkingDays (toOrdinal 2024 3 1) (toOrdinal 2024 3 31) = 21
    ∧ countWorkingDays (toOrdinal 2024 3 1) (toOrdinal 2024 3 31) ≠ 22 := by
  have h21 : countWorkingDays (toOrdinal 2024 3 1) (toOrdinal 2024 3 31) = 21 := by decide
  have hc : reservationContribution (toOrdinal 2024 3 1) (toOrdinal 2024 3 31)
      (toOrdinal 2024 3 1) (toOrdinal 2024 3 31) 2 = 42 := by
    simp only [reservationContribution, max_self, min_self]
    rw [if_pos (by decide), h21]
    norm_num
  exact ⟨hc, by rw [hc]; norm_num, h21, by rw [h21]; decide⟩

/-- C4 amended: an overlapping active reservation contributes exactly
`hours_per_day * overlap_wd`, with no division, in both the admission
path and the dashboard's per-month pro-rating; in particular, a 2
hours/day reservation covering all of March 2024 (21 working days under
the Fri/Sat weekend) contributes 42 hours. -/
theorem reservation_rate_contribution (ws we rs re : ℕ) (hpd : ℚ) (m y : ℕ) :
    (max ws rs ≤ min we re →
      reservationContribution ws we rs re hpd
        = hpd * (countWorkingDays (max ws rs) (min we re) : ℚ))
    ∧ (max rs (monthStart y m) ≤ min re (monthEnd y m) →
      prorateReservationHoursForMonth rs re hpd m y
        = hpd * (countWorkingDays (max rs (monthStart y m)) (min re (monthEnd y m)) : ℚ)) := by
  constructor
  · intro hov
    simp only [reservationContribution]
    rw [if_pos hov]
  · intro hov
    simp only [prorateReservationHoursForMonth]
    rw [if_neg (not_lt.mpr hov)]

/-- Witness for C4 amended: the March 2024 full-month reservation at 2
hours/day; the overlap has 21 working days and the contribution is 42. -/
theorem reservation_rate_contribution_witness :
    max (toOrdinal 2024 3 1) (toOrdinal 2024 3 1)
      ≤ min (toOrdinal 2024 3 31) (toOrdinal 2024 3 31)
    ∧ countWorkingDays (max (toOrdinal 2024 3 1) (toOrdinal 2024 3 1))
        (min (toOrdinal 2024 3 31) (toOrdinal 2024 3 31)) = 21
    ∧ reservationContribution (toOrdinal 2024 3 1) (toOrdinal 2024 3 31)
        (toOrdinal 2024 3 1) (toOrdinal 2024 3 31) 2
      = 2 * (countWorkingDays (max (toOrdinal 2024 3 1) (toOrdinal 2024 3 1))
          (min (toOrdinal 2024 3 31) (toOrdinal 2024 3 31)) : ℚ) :=
  ⟨by decide, by decide,
   (reservation_rate_contribution (toOrdinal 2024 3 1) (toOrdinal 2024 3 31)
     (toOrdinal 2024 3 1) (toOrdinal 2024 3 31) 2 3 2024).1 (by decide)⟩

/-- C5 counterexample: the dashboard's monthly-summary `total_available`
has no zero floor — one employee with a 300-hour booking across January
2024 against a 140-hour base (7 h/day, 20 days/month) yields -160. -/
theorem dashboard_negative_available_cx :
    monthlyTotalAvailable 7 20
        [⟨[⟨1, 0⟩], [⟨toOrdinal 2024 1 1, toOrdinal 2024 1 31, 300⟩], []⟩] 1 2024
      = -160
    ∧ monthlyTotalAvailable 7 20
        [⟨[⟨1, 0⟩], [⟨toOrdinal 2024 1 1, toOrdinal 2024 1 31, 300⟩], []⟩] 1 2024
      < 0 := by
  have hme : monthEnd 2024 1 = toOrdinal 2024 1 31 := by decide
  have hcw : countWorkingDays (toOrdinal 2024 1 1) (toOrdinal 2024 1 31) = 23 := by decide
  have hpror : prorateBookingHoursForMonth (toOrdinal 2024 1 1) (toOrdinal 2024 1 31)
      300 1 2024 = 300 := by
    simp only [prorateBookingHoursForMonth, hme, monthStart, max_self, min_self, hcw]
    rw [if_neg (by decide), if_neg (by decide)]
    norm_num
  have hpbh : projectBookedHours [⟨toOrdinal 2024 1 1, toOrdinal 2024 1 31, 300⟩] 1 2024
      = 300 := by
    simp only [projectBookedHours, List.map_cons, List.map_nil, List.sum_cons,
      List.sum_nil, hpror, add_zero]
    have := pyRound1_intCast 300
    norm_num at this
    exact this
  have hrhm : reservedHoursForMonth [] 1 2024 = 0 := by
    simp only [reservedHoursForMonth, List.map_nil, List.sum_nil]
    have := pyRound1_intCast 0
    norm_num at this
    exact this
  have hmta : monthlyTotalAvailable 7 20
      [⟨[⟨1, 0⟩], [⟨toOrdinal 2024 1 1, toOrdinal 2024 1 31, 300⟩], []⟩] 1 2024
      = -160 := by
    simp only [monthlyTotalAvailable, actualAvailable, List.filter, beq_self_eq_true,
      List.map_cons, List.map_nil, List.sum_cons, List.sum_nil, add_zero]
    rw [hpbh, hrhm]
    norm_num
  exact ⟨hmta, by rw [hmta]; norm_num⟩

/-- C5 amended: the admission path computes `available_hours = max(0,
max_capacity - total_utilized)`, which is non-negative, and the per-row
dashboard field `available_hours_per_month` is likewise floored at zero;
but the dashboard's monthly-summary `total_available` is accumulated
without the floor and can be negative. -/
theorem available_hours_floor_admission (bookings : List BookingRec)
    (reservations : List ReservationRec) (empId ws we : ℕ) (whpd wdpm reserved : ℚ) :
    availableHours bookings reservations empId ws we whpd
      = max 0 (totalMaxHours ws we whpd
          - (totalBookedHours bookings empId ws we
              + totalReservedHours reservations empId ws we))
    ∧ 0 ≤ availableHours bookings reservations empId ws we whpd
    ∧ 0 ≤ availableHoursPerMonthField whpd wdpm reserved :=
  ⟨rfl, le_max_left _ _, le_max_left _ _⟩

/-- A reversed query window has an empty overlap with every booking. -/
lemma bookingContribution_reversed {ws we : ℕ} (h : we < ws) (bs be : ℕ) (hours : ℚ) :
    bookingContribution ws we bs be hours = 0 := by
  have hlt : min we be < max ws bs :=
    lt_of_le_of_lt (min_le_left _ _) (lt_of_lt_of_le h (le_max_left _ _))
  simp only [bookingContribution]
  rw [if_neg (not_le.mpr hlt)]

/-- A reversed query window has an empty overlap with every reservation. -/
lemma reservationContribution_reversed {ws we : ℕ} (h : we < ws) (rs re : ℕ) (hpd : ℚ) :
    reservationContribution ws we rs re hpd = 0 := by
  have hlt : min we re < max ws rs :=
    lt_of_le_of_lt (min_le_left _ _) (lt_of_lt_of_le h (le_max_left _ _))
  simp only [reservationContribution]
  rw [if_neg (not_le.mpr hlt)]

/-- A reversed window accumulates zero booked hours. -/
lemma totalBookedHours_reversed {ws we : ℕ} (h : we < ws)
    (bookings : List BookingRec) (empId : ℕ) :
    totalBookedHours bookings empId ws we = 0 := by
  unfold totalBookedHours
  apply List.sum_eq_zero
  intro x hx
  simp only [List.mem_map] at hx
  obtain ⟨b, _, rfl⟩ := hx
  exact bookingContribution_reversed h _ _ _

/-- A reversed window accumulates zero reserved hours. -/
lemma totalReservedHours_reversed {ws we : ℕ} (h : we < ws)
    (reservations : List ReservationRec) (empId : ℕ) :
    totalReservedHours reservations empId ws we = 0 := by
  unfold totalReservedHours
  apply List.sum_eq_zero
  intro x hx
  simp only [List.mem_map] at hx
  obtain ⟨r, _, rfl⟩ := hx
  exact reservationContribution_reversed h _ _ _

/-- A reversed window has zero available hours. -/
lemma availableHours_reversed {ws we : ℕ} (h : we < ws)
    (bookings : List BookingRec) (reservations : List ReservationRec)
    (empId : ℕ) (whpd : ℚ) :
    availableHours bookings reservations empId ws we whpd = 0 := by
  simp only [availableHours, totalMaxHours, totalBookedHours_reversed h,
    totalReservedHours_reversed h, countWorkingDays_eq_zero_of_reversed h]
  norm_num

/-- C8 counterexample: a reversed range is not rejected with
`InvalidRangeError` — the source `count_working_days` returns the plain
count 0 (diverging from the spec-modelled checked version), and
`book_employee_for_project` on a reversed window with positive proposed
hours returns the insufficient-capacity error, not an invalid-range
failure. -/
theorem reversed_range_no_error_cx :
    countWorkingDays (toOrdinal 2024 1 10) (toOrdinal 2024 1 5) = 0
    ∧ countWorkingDaysChecked [4, 5] (toOrdinal 2024 1 10) (toOrdinal 2024 1 5)
        = .error .invalidRange
    ∧ (Except.ok (countWorkingDays (toOrdinal 2024 1 10) (toOrdinal 2024 1 5))
        : Except RangeError ℕ)
        ≠ countWorkingDaysChecked [4, 5] (toOrdinal 2024 1 10) (toOrdinal 2024 1 5)
    ∧ bookEmployeeForProject true true
        ⟨some 1, some (toOrdinal 2024 1 10), some (toOrdinal 2024 1 5), some 5, none⟩
        [] [] 7
      = .insufficientCapacity 0 0 0 0 := by
  have hrev : toOrdinal 2024 1 5 < toOrdinal 2024 1 10 := by decide
  have hchk : countWorkingDaysChecked [4, 5] (toOrdinal 2024 1 10) (toOrdinal 2024 1 5)
      = .error .invalidRange := by
    unfold countWorkingDaysChecked
    rw [if_pos hrev]
  refine ⟨countWorkingDays_eq_zero_of_reversed hrev, hchk, ?_, ?_⟩
  · rw [hchk]
    exact fun h => Except.noConfusion h
  · have hav := availableHours_reversed hrev ([] : List BookingRec)
      ([] : List ReservationRec) 1 7
    simp only [bookEmployeeForProject]
    rw [if_neg (by simp), if_neg (by simp), if_pos (by rw [hav]; norm_num), hav,
      totalBookedHours_reversed hrev, totalReservedHours_reversed hrev, add_zero]

/-- C8 amended: neither `count_working_days` nor
`book_employee_for_project` rejects a reversed range with an
invalid-range error: the count is 0 (the loop never runs), so a reversed
window has zero capacity and any positive proposed hours fail with the
insufficient-capacity error instead; a missing project fails with the
project-not-found error and a missing employee with the
employee-not-found error. -/
theorem reversed_range_behavior (empId ws we : ℕ) (hours : ℚ) (role : Option String)
    (bookings : List BookingRec) (reservations : List ReservationRec) (whpd : ℚ)
    (ee : Bool) (h : we < ws) :
    countWorkingDays ws we = 0
    ∧ (0 < hours →
      bookEmployeeForProject true true ⟨some empId, some ws, some we, some hours, role⟩
          bookings reservations whpd = .insufficientCapacity 0 0 0 0)
    ∧ bookEmployeeForProject false ee ⟨some empId, some ws, some we, some hours, role⟩
        bookings reservations whpd = .projectNotFound
    ∧ bookEmployeeForProject true false ⟨some empId, some ws, some we, some hours, role⟩
        bookings reservations whpd = .employeeNotFound := by
  refine ⟨countWorkingDays_eq_zero_of_reversed h, ?_, ?_, ?_⟩
  · intro hh
    have hav := availableHours_reversed h bookings reservations empId whpd
    simp only [bookEmployeeForProject]
    rw [if_neg (by simp), if_neg (by simp), if_pos (by rw [hav]; exact hh), hav,
      totalBookedHours_reversed h, totalReservedHours_reversed h, add_zero]
  · simp only [bookEmployeeForProject]
    rw [if_pos (by simp)]
  · simp only [bookEmployeeForProject]
    rw [if_neg (by simp), if_pos (by simp)]

/-- Witness for C8 amended: the reversed window 2024-01-10..2024-01-05
with 5 proposed hours yields the capacity rejection, and the not-found
branches fire when project or employee are missing. -/
theorem reversed_range_behavior_witness :
    toOrdinal 2024 1 5 < toOrdinal 2024 1 10
    ∧ countWorkingDays (toOrdinal 2024 1 10) (toOrdinal 2024 1 5) = 0
    ∧ bookEmployeeForProject true true
        ⟨some 2, some (toOrdinal 2024 1 10), some (toOrdinal 2024 1 5), some 5, none⟩
        [] [] 7 = .insufficientCapacity 0 0 0 0
    ∧ bookEmployeeForProject false true
        ⟨some 2, some (toOrdinal 2024 1 10), some (toOrdinal 2024 1 5), some 5, none⟩
        [] [] 7 = .projectNotFound :=
  ⟨by decide,
   (reversed_range_behavior 2 (toOrdinal 2024 1 10) (toOrdinal 2024 1 5) 5 none
     [] [] 7 true (by decide)).1,
   (reversed_range_behavior 2 (toOrdinal 2024 1 10) (toOrdinal 2024 1 5) 5 none
     [] [] 7 true (by decide)).2.1 (by norm_num),
   (reversed_range_behavior 2 (toOrdinal 2024 1 10) (toOrdinal 2024 1 5) 5 none
     [] [] 7 true (by decide)).2.2.1⟩

/-- For well-formed ranges the SQL three-disjunct condition is exactly
interval intersection. -/
lemma sqlOverlap_iff {rs re s e : ℕ} (hr : rs ≤ re) (hw : s ≤ e) :
    sqlOverlap rs re s e = true ↔ (rs ≤ e ∧ s ≤ re) := by
  simp only [sqlOverlap, Bool.or_eq_true, Bool.and_eq_true, decide_eq_true_eq]
  omega

/-- C9 counterexample: `EmployeeReservation.update` does not re-check
overlap — moving reservation 2 (Feb 1..Feb 10) to Jan 5..Feb 5 succeeds
and leaves two overlapping active reservations for employee 1, where the
store held none before. -/
theorem reservation_update_overlap_unchecked_cx :
    activeOverlapExists
        [⟨1, 1, toOrdinal 2024 1 1, toOrdinal 2024 1 10, 2, none, "active"⟩,
         ⟨2, 1, toOrdinal 2024 2 1, toOrdinal 2024 2 10, 2, none, "active"⟩] = false
    ∧ (updateReservation ⟨7, 20, []⟩
        [⟨1, 1, toOrdinal 2024 1 1, toOrdinal 2024 1 10, 2, none, "active"⟩,
         ⟨2, 1, toOrdinal 2024 2 1, toOrdinal 2024 2 10, 2, none, "active"⟩]
        2 ⟨some (toOrdinal 2024 1 5), some (toOrdinal 2024 2 5), none, none, none⟩).1
      = .ok ()
    ∧ activeOverlapExists
        (updateReservation ⟨7, 20, []⟩
          [⟨1, 1, toOrdinal 2024 1 1, toOrdinal 2024 1 10, 2, none, "active"⟩,
           ⟨2, 1, toOrdinal 2024 2 1, toOrdinal 2024 2 10, 2, none, "active"⟩]
          2 ⟨some (toOrdinal 2024 1 5), some (toOrdinal 2024 2 5), none, none, none⟩).2
      = true := by
  refine ⟨by decide, rfl, by decide⟩

/-- C9 amended: creation does enforce the non-overlap invariant — a new
reservation whose range intersects an existing active reservation of the
same employee is rejected with the overlap error and the stored
reservations are unchanged — but `update` performs no overlap re-check,
so updating a reservation's dates can produce overlapping active
reservations. -/
theorem reservation_create_overlap_rejected (cfg : Settings)
    (store : List ReservationRec) (empId s e : ℕ) (hpd : ℚ) (reason : Option String)
    (hse : s ≤ e) (h0 : 0 ≤ hpd) (hmax : hpd ≤ getWorkHoursPerDay cfg)
    (r : ReservationRec) (hr : r ∈ store) (hemp : r.employeeId = empId)
    (hact : r.status = "active") (hwf : r.startD ≤ r.endD)
    (hov1 : r.startD ≤ e) (hov2 : s ≤ r.endD) :
    createReservation cfg store empId s e hpd reason = (.error .overlap, store) := by
  unfold createReservation
  rw [if_neg (by omega), if_neg (by push_neg; exact ⟨h0, hmax⟩), if_pos ?_]
  rw [List.any_eq_true]
  refine ⟨r, hr, ?_⟩
  simp only [Bool.and_eq_true, beq_iff_eq]
  exact ⟨⟨hemp, hact⟩, (sqlOverlap_iff hwf hse).mpr ⟨hov1, hov2⟩⟩

/-- Witness for C9 amended: creating a Jan 5..Jan 20 reservation for
employee 1 with an existing active Jan 1..Jan 10 reservation fails with
the overlap error and leaves the store as it was. -/
theorem reservation_create_overlap_rejected_witness :
    toOrdinal 2024 1 5 ≤ toOrdinal 2024 1 20
    ∧ createReservation ⟨7, 20, []⟩
        [⟨1, 1, toOrdinal 2024 1 1, toOrdinal 2024 1 10, 2, none, "active"⟩]
        1 (toOrdinal 2024 1 5) (toOrdinal 2024 1 20) 2 none
      = (.error .overlap,
         [⟨1, 1, toOrdinal 2024 1 1, toOrdinal 2024 1 10, 2, none, "active"⟩]) :=
  ⟨by decide,
   reservation_create_overlap_rejected ⟨7, 20, []⟩
     [⟨1, 1, toOrdinal 2024 1 1, toOrdinal 2024 1 10, 2, none, "active"⟩]
     1 (toOrdinal 2024 1 5) (toOrdinal 2024 1 20) 2 none
     (by decide) (by norm_num) (by norm_num [getWorkHoursPerDay])
     ⟨1, 1, toOrdinal 2024 1 1, toOrdinal 2024 1 10, 2, none, "active"⟩
     (List.mem_singleton.mpr rfl) rfl rfl (by decide) (by decide) (by decide)⟩

/-- C10 counterexample: with a per-employee override of 10 hours/day over
a global 7, creating a reservation at 9 hours/day — inside the
employee's effective bound — is still rejected with the out-of-range
error, because `create` bounds against the global
`get_work_hours_per_day()`, not the effective value. -/
theorem reservation_bound_ignores_override_cx :
    effectiveWorkHoursPerDay ⟨7, 20, [⟨1, some 10, none⟩]⟩ 1 = 10
    ∧ (0 : ℚ) ≤ 9
    ∧ (9 : ℚ) ≤ effectiveWorkHoursPerDay ⟨7, 20, [⟨1, some 10, none⟩]⟩ 1
    ∧ (createReservation ⟨7, 20, [⟨1, some 10, none⟩]⟩ []
        1 (toOrdinal 2024 1 1) (toOrdinal 2024 1 10) 9 none).1
      = .error .outOfRange := by
  have heff : effectiveWorkHoursPerDay ⟨7, 20, [⟨1, some 10, none⟩]⟩ 1 = 10 := rfl
  have hcr : (createReservation ⟨7, 20, [⟨1, some 10, none⟩]⟩ []
      1 (toOrdinal 2024 1 1) (toOrdinal 2024 1 10) 9 none).1 = .error .outOfRange := by
    unfold createReservation
    rw [if_neg (by decide), if_pos (by norm_num [getWorkHoursPerDay])]
  exact ⟨heff, by norm_num, by rw [heff]; norm_num, hcr⟩

/-- C10 amended: for a non-reversed range, reservation creation rejects
with the out-of-range error exactly when `hours_per_day` lies outside
`[0, G]` where `G` is the *global* `work_hours_per_day`
(`SettingsController.get_work_hours_per_day()`), not the employee's
effective override-merged value. -/
theorem reservation_hours_bound_global (cfg : Settings) (store : List ReservationRec)
    (empId s e : ℕ) (hpd : ℚ) (reason : Option String) (hse : s ≤ e) :
    (createReservation cfg store empId s e hpd reason).1 = .error .outOfRange
      ↔ (hpd < 0 ∨ getWorkHoursPerDay cfg < hpd) := by
  unfold createReservation
  rw [if_neg (by omega)]
  by_cases h : hpd < 0 ∨ getWorkHoursPerDay cfg < hpd
  · rw [if_pos h]
    simpa using h
  · rw [if_neg h]
    refine iff_of_false ?_ h
    split
    · intro hres
      simp at hres
    · intro hres
      simp at hres

/-- Witness for C10 amended: with global 7 hours/day (and an override of
10 for employee 1 that the check ignores), 8 hours/day is rejected as
out of range. -/
theorem reservation_hours_bound_global_witness :
    toOrdinal 2024 1 1 ≤ toOrdinal 2024 1 10
    ∧ (createReservation ⟨7, 20, [⟨1, some 10, none⟩]⟩ []
        1 (toOrdinal 2024 1 1) (toOrdinal 2024 1 10) 8 none).1 = .error .outOfRange :=
  ⟨by decide,
   (reservation_hours_bound_global ⟨7, 20, [⟨1, some 10, none⟩]⟩ []
     1 (toOrdinal 2024 1 1) (toOrdinal 2024 1 10) 8 none (by decide)).mpr
     (Or.inr (by norm_num [getWorkHoursPerDay]))⟩

end ResourceManager
